import Mathlib

/-!
Shallow embedding of `src/rn42.py`, the RN-42 bluetooth chip driver.

The transport (`serial_utils.SerialDevice`) is modelled as an oracle
mapping each transmitted payload to either a raw response string or a
raised Python exception.  Each driver method becomes a pure function on
an explicit session state `(command_mode, closed)` that also returns the
list of transport-level events (payload sends, disconnect calls) it
performed, so that wire-format and teardown claims can be stated.
-/

/-- Python exceptions relevant to the module: the module's own
`RN42Exception(msg)`, `serial.SerialTimeoutException`, and any other
exception type (identified by name). -/
inductive PyExc where
  | RN42Exception (msg : String)
  | SerialTimeoutException
  | OtherException (name : String)
deriving DecidableEq, Repr

/-- Python whitespace characters recognised by `str.strip()`. -/
def isPySpace (c : Char) : Bool :=
  c = ' ' || c = '\t' || c = '\n' || c = '\r' || c = '\x0b' || c = '\x0c'

/-- Python `str.strip()`: drop leading and trailing whitespace. -/
def pyStrip (s : String) : String :=
  String.mk (((s.data.dropWhile isPySpace).reverse.dropWhile isPySpace).reverse)

/-- Does `needle` occur as a contiguous run starting at any position of
the second list? -/
def charsContain (needle : List Char) : List Char → Bool
  | [] => needle.isEmpty
  | c :: rest => List.isPrefixOf needle (c :: rest) || charsContain needle rest

/-- Python `needle in hay` on strings: substring containment. -/
def pyContains (hay needle : String) : Bool :=
  charsContain needle.data hay.data

/-- Python `s.startswith(pre)`. -/
def pyStartswith (s pre : String) : Bool :=
  List.isPrefixOf pre.data s.data

/-- The serial transport: for each payload handed to `SendReceive`,
either the raw response text or a raised exception. -/
structure SerialDevice where
  respond : String → Except PyExc String

/-- Observable transport-level events of one driver call. -/
inductive SerialEvent where
  | send (payload : String)
  | disconnect
deriving DecidableEq, Repr

/-- The mutable instance state of class `RN42`:
`_command_mode` and `_closed`. -/
structure RN42State where
  command_mode : Bool
  closed : Bool
deriving DecidableEq, Repr

-- Class-level constants of `RN42` (src/rn42.py lines 35-124).
def CHIP_NAME : String := "RNBT"

def NEWLINE : String := "\r\n"

def AOK : String := "AOK"

def CMD_ENTER_COMMAND_MODE : String := "$$$"

def CMD_LEAVE_COMMAND_MODE : String := "---"

def CMD_REBOOT : String := "R,1"

def CMD_GET_CHIP_NAME : String := "GN"

def CMD_GET_FIRMWARE_VERSION : String := "V"

def CMD_GET_OPERATION_MODE : String := "GM"

def CMD_SET_MASTER_MODE : String := "SM,1"

def CMD_SET_SLAVE_MODE : String := "SM,0"

def CMD_GET_AUTHENTICATION_MODE : String := "GA"

def CMD_SET_AUTHENTICATION_OPEN_MODE : String := "SA,0"

def CMD_SET_AUTHENTICATION_PIN_MODE : String := "SA,4"

def PROFILE_SPP : String := "0"

def PROFILE_HID : String := "6"

def CMD_GET_SERVICE_PROFILE : String := "G~"

def CMD_SET_SERVICE_PROFILE_SPP : String := "S~," ++ PROFILE_SPP

def CMD_SET_SERVICE_PROFILE_HID : String := "S~," ++ PROFILE_HID

def CMD_GET_RN42_BLUETOOTH_MAC : String := "GB"

def CMD_GET_CONNECTION_STATUS : String := "GK"

def CMD_GET_REMOTE_CONNECTED_BLUETOOTH_MAC : String := "GF"

def CMD_GET_HID : String := "GH"

def CMD_SET_HID_KEYBOARD : String := "SH,0000"

def CMD_SET_HID_GAMEPAD : String := "SH,0010"

def CMD_SET_HID_MOUSE : String := "SH,0020"

def CMD_SET_HID_COMBO : String := "SH,0030"

def CMD_SET_HID_JOYSTICK : String := "SH,0040"

def OPERATION_MODE : List (String × String) :=
  [("Slav", "SLAVE"), ("Mstr", "MASTER"), ("Trig", "TRIGGER"),
   ("Auto", "AUTO"), ("DTR", "DTR"), ("Any", "ANY"), ("Pair", "PAIR")]

def AUTHENTICATION_MODE : List (String × String) :=
  [("0", "OPEN"), ("1", "SSP_KEYBOARD"), ("2", "SSP_JUST_WORK"),
   ("4", "PIN_CODE")]

def SERVICE_PROFILE : List (String × String) :=
  [("0", "SPP"), ("1", "DUN_DCE"), ("2", "DUN_DTE"), ("3", "MDM_SPP"),
   ("4", "SPP_AND_DUN_DCE"), ("5", "APL"), ("6", "HID")]

def HID_DEVICE_TYPE : List (String × String) :=
  [("0200", "KEYBOARD"), ("0210", "GAMEPAD"), ("0220", "MOUSE"),
   ("0230", "COMBO"), ("0240", "JOYSTICK"), ("0250", "DIGITIZER"),
   ("0260", "SENSOR"), ("0270", "USECFG")]

/-- Python `dict.get(k)`: `some` of the value when the key is present,
`none` otherwise. -/
def dictGet (d : List (String × String)) (k : String) : Option String :=
  d.lookup k

/-- Body of the `try:` block of `RN42.serial_send_and_receive`
(src/rn42.py lines 177-190): transmit `command + NEWLINE`, strip the
response, and raise the detailed mismatch message when an expectation
fails.  Any exception escaping this body is re-wrapped by the caller. -/
def ssr_try_body (ser : SerialDevice) (command expect expect_in msg : String) :
    Except PyExc String :=
  match ser.respond (command ++ NEWLINE) with
  | Except.error e => Except.error e
  | Except.ok raw =>
    let result := pyStrip raw
    if (expect != "" && expect != result)
        || (expect_in != "" && !(pyContains result expect_in)) then
      Except.error (PyExc.RN42Exception ("Failulre in " ++ msg ++ ": " ++ result))
    else
      Except.ok result

/-- `RN42.serial_send_and_receive` (src/rn42.py lines 157-196).  The
`except Exception:` clause catches every exception raised in the body,
including the detailed mismatch `RN42Exception`, and re-raises a plain
`RN42Exception` carrying only the label.  Second component: the
transport events (one send of `command + NEWLINE`). -/
def serial_send_and_receive (ser : SerialDevice)
    (command expect expect_in msg : String) :
    Except PyExc String × List SerialEvent :=
  (match ssr_try_body ser command expect expect_in msg with
   | Except.error _ => Except.error (PyExc.RN42Exception ("Failulre in " ++ msg))
   | Except.ok result => Except.ok result,
   [SerialEvent.send (command ++ NEWLINE)])

/-- `RN42.get_chip_name` (src/rn42.py lines 268-278). -/
def get_chip_name (ser : SerialDevice) : Except PyExc String × List SerialEvent :=
  serial_send_and_receive ser CMD_GET_CHIP_NAME "" "" "getting chip name"

/-- Body of the nested `try:` of `RN42.enter_command_mode`
(src/rn42.py lines 227-236): probe the chip name; accept a name with
the expected prefix, otherwise raise the detailed incorrect-name
message.  Any exception escaping this body (including that raise) is
caught by the surrounding `except Exception:`. -/
def enter_probe_body (ser : SerialDevice) :
    Except PyExc Bool × List SerialEvent :=
  let r := get_chip_name ser
  (match r.1 with
   | Except.error e => Except.error e
   | Except.ok chip_name =>
     if pyStartswith chip_name CHIP_NAME then
       Except.ok true
     else
       Except.error (PyExc.RN42Exception
         ("Incorrect chip name when entering command mode: " ++ chip_name)),
   r.2)

/-- `RN42.enter_command_mode` (src/rn42.py lines 198-242).  The entry
token is sent bare, with no newline; only a `SerialTimeoutException`
from that exchange is converted to an `RN42Exception`, other exceptions
propagate.  Three outcomes on the stripped response: contains `"CMD"`,
empty (resolved by the chip-name probe), or any other text. -/
def enter_command_mode (ser : SerialDevice) (s : RN42State) :
    Except PyExc Bool × RN42State × List SerialEvent :=
  match ser.respond CMD_ENTER_COMMAND_MODE with
  | Except.error PyExc.SerialTimeoutException =>
      (Except.error (PyExc.RN42Exception "Failure in entering command mode."),
       s, [SerialEvent.send CMD_ENTER_COMMAND_MODE])
  | Except.error e =>
      (Except.error e, s, [SerialEvent.send CMD_ENTER_COMMAND_MODE])
  | Except.ok raw =>
    let result := pyStrip raw
    if pyContains result "CMD" then
      (Except.ok true, { s with command_mode := true },
       [SerialEvent.send CMD_ENTER_COMMAND_MODE])
    else if result = "" then
      let probe := enter_probe_body ser
      match probe.1 with
      | Except.ok b =>
          (Except.ok b, { s with command_mode := true },
           SerialEvent.send CMD_ENTER_COMMAND_MODE :: probe.2)
      | Except.error _ =>
          (Except.error (PyExc.RN42Exception
             "Failure to get chip name in entering command mode."),
           s, SerialEvent.send CMD_ENTER_COMMAND_MODE :: probe.2)
    else
      (Except.error (PyExc.RN42Exception
         ("Incorrect response in entering command mode: " ++ result)),
       s, [SerialEvent.send CMD_ENTER_COMMAND_MODE])

/-- `RN42.leave_command_mode` (src/rn42.py lines 244-254): only issues
the exit transaction when in command mode; clears the flag only after
the transaction validated `"END"`. -/
def leave_command_mode (ser : SerialDevice) (s : RN42State) :
    Except PyExc Bool × RN42State × List SerialEvent :=
  if s.command_mode then
    let r := serial_send_and_receive ser CMD_LEAVE_COMMAND_MODE "END" ""
      "leaving command mode"
    match r.1 with
    | Except.error e => (Except.error e, s, r.2)
    | Except.ok _ => (Except.ok true, { s with command_mode := false }, r.2)
  else
    (Except.ok true, s, [])

/-- `RN42.close` (src/rn42.py lines 148-155): when not closed, call
`leave_command_mode` (unguarded: its exception propagates and skips the
rest), then `Disconnect`, then set `_closed`. -/
def close (ser : SerialDevice) (s : RN42State) :
    Except PyExc Unit × RN42State × List SerialEvent :=
  if s.closed then
    (Except.ok (), s, [])
  else
    match leave_command_mode ser s with
    | (Except.error e, s1, ev) => (Except.error e, s1, ev)
    | (Except.ok _, s1, ev) =>
        (Except.ok (), { s1 with closed := true },
         ev ++ [SerialEvent.disconnect])

/-- `RN42.reboot` (src/rn42.py lines 256-266). -/
def reboot (ser : SerialDevice) : Except PyExc Bool × List SerialEvent :=
  let r := serial_send_and_receive ser CMD_REBOOT "Reboot" "" "rebooting RN-42"
  (r.1.map (fun _ => true), r.2)

/-- `RN42.get_firmware_version` (src/rn42.py lines 280-291). -/
def get_firmware_version (ser : SerialDevice) :
    Except PyExc String × List SerialEvent :=
  serial_send_and_receive ser CMD_GET_FIRMWARE_VERSION "" "Ver"
    "getting firmware version"

/-- `RN42.get_operation_mode` (src/rn42.py lines 293-301). -/
def get_operation_mode (ser : SerialDevice) :
    Except PyExc (Option String) × List SerialEvent :=
  let r := serial_send_and_receive ser CMD_GET_OPERATION_MODE "" ""
    "getting operation mode"
  (r.1.map (fun result => dictGet OPERATION_MODE result), r.2)

/-- `RN42.set_master_mode` (src/rn42.py lines 303-312). -/
def set_master_mode (ser : SerialDevice) : Except PyExc Bool × List SerialEvent :=
  let r := serial_send_and_receive ser CMD_SET_MASTER_MODE AOK ""
    "setting master mode"
  (r.1.map (fun _ => true), r.2)

/-- `RN42.set_slave_mode` (src/rn42.py lines 314-323). -/
def set_slave_mode (ser : SerialDevice) : Except PyExc Bool × List SerialEvent :=
  let r := serial_send_and_receive ser CMD_SET_SLAVE_MODE AOK ""
    "setting slave mode"
  (r.1.map (fun _ => true), r.2)

/-- `RN42.get_authentication_mode` (src/rn42.py lines 325-333). -/
def get_authentication_mode (ser : SerialDevice) :
    Except PyExc (Option String) × List SerialEvent :=
  let r := serial_send_and_receive ser CMD_GET_AUTHENTICATION_MODE "" ""
    "getting authentication mode"
  (r.1.map (fun result => dictGet AUTHENTICATION_MODE result), r.2)

/-- `RN42.set_authentication_open_mode` (src/rn42.py lines 335-344). -/
def set_authentication_open_mode (ser : SerialDevice) :
    Except PyExc Bool × List SerialEvent :=
  let r := serial_send_and_receive ser CMD_SET_AUTHENTICATION_OPEN_MODE AOK ""
    "setting authentication open mode"
  (r.1.map (fun _ => true), r.2)

/-- `RN42.set_authentication_pin_mode` (src/rn42.py lines 346-354). -/
def set_authentication_pin_mode (ser : SerialDevice) :
    Except PyExc Bool × List SerialEvent :=
  let r := serial_send_and_receive ser CMD_SET_AUTHENTICATION_PIN_MODE AOK ""
    "setting authentication pin mode"
  (r.1.map (fun _ => true), r.2)

/-- `RN42.get_service_profile` (src/rn42.py lines 356-363). -/
def get_service_profile (ser : SerialDevice) :
    Except PyExc (Option String) × List SerialEvent :=
  let r := serial_send_and_receive ser CMD_GET_SERVICE_PROFILE "" ""
    "getting service profile"
  (r.1.map (fun result => dictGet SERVICE_PROFILE result), r.2)

/-- `RN42.set_service_profile_SPP` (src/rn42.py lines 365-374). -/
def set_service_profile_SPP (ser : SerialDevice) :
    Except PyExc Bool × List SerialEvent :=
  let r := serial_send_and_receive ser CMD_SET_SERVICE_PROFILE_SPP AOK ""
    "setting SPP as service profile"
  (r.1.map (fun _ => true), r.2)

/-- `RN42.set_service_profile_HID` (src/rn42.py lines 376-385). -/
def set_service_profile_HID (ser : SerialDevice) :
    Except PyExc Bool × List SerialEvent :=
  let r := serial_send_and_receive ser CMD_SET_SERVICE_PROFILE_HID AOK ""
    "setting HID as service profile"
  (r.1.map (fun _ => true), r.2)

/-- `RN42.get_local_bluetooth_address` (src/rn42.py lines 387-394). -/
def get_local_bluetooth_address (ser : SerialDevice) :
    Except PyExc String × List SerialEvent :=
  serial_send_and_receive ser CMD_GET_RN42_BLUETOOTH_MAC "" ""
    "getting local bluetooth address"

/-- `RN42.get_connection_status` (src/rn42.py lines 396-407):
`result.split(sep)[0] == "1"`. -/
def get_connection_status (ser : SerialDevice) :
    Except PyExc Bool × List SerialEvent :=
  let r := serial_send_and_receive ser CMD_GET_CONNECTION_STATUS "" ""
    "getting connection status"
  (r.1.map (fun result => (result.splitOn ",").headD "" == "1"), r.2)

/-- `RN42.get_remote_connected_bluetooth_address` (src/rn42.py lines
409-419).  Note the source reuses the label of the local-address query. -/
def get_remote_connected_bluetooth_address (ser : SerialDevice) :
    Except PyExc (Option String) × List SerialEvent :=
  let r := serial_send_and_receive ser CMD_GET_REMOTE_CONNECTED_BLUETOOTH_MAC
    "" "" "getting local bluetooth address"
  (r.1.map (fun result =>
    if result = "000000000000" then none else some result), r.2)

/-- `RN42.get_HID_deviceType` (src/rn42.py lines 421-428). -/
def get_HID_deviceType (ser : SerialDevice) :
    Except PyExc (Option String) × List SerialEvent :=
  let r := serial_send_and_receive ser CMD_GET_HID "" ""
    "getting HID device type"
  (r.1.map (fun result => dictGet HID_DEVICE_TYPE result), r.2)

/-- `RN42.set_HID_keyboard` (src/rn42.py lines 430-438). -/
def set_HID_keyboard (ser : SerialDevice) : Except PyExc Bool × List SerialEvent :=
  let r := serial_send_and_receive ser CMD_SET_HID_KEYBOARD AOK ""
    "setting keyboard as HID device"
  (r.1.map (fun _ => true), r.2)

/-- `RN42.set_HID_gamepad` (src/rn42.py lines 440-448). -/
def set_HID_gamepad (ser : SerialDevice) : Except PyExc Bool × List SerialEvent :=
  let r := serial_send_and_receive ser CMD_SET_HID_GAMEPAD AOK ""
    "setting gamepad as HID device"
  (r.1.map (fun _ => true), r.2)

/-- `RN42.set_HID_mouse` (src/rn42.py lines 450-459). -/
def set_HID_mouse (ser : SerialDevice) : Except PyExc Bool × List SerialEvent :=
  let r := serial_send_and_receive ser CMD_SET_HID_MOUSE AOK ""
    "setting mouse as HID device"
  (r.1.map (fun _ => true), r.2)

/-- `RN42.set_HID_combo` (src/rn42.py lines 461-470). -/
def set_HID_combo (ser : SerialDevice) : Except PyExc Bool × List SerialEvent :=
  let r := serial_send_and_receive ser CMD_SET_HID_COMBO AOK ""
    "setting combo as HID device"
  (r.1.map (fun _ => true), r.2)

/-- `RN42.set_HID_joystick` (src/rn42.py lines 472-481). -/
def set_HID_joystick (ser : SerialDevice) : Except PyExc Bool × List SerialEvent :=
  let r := serial_send_and_receive ser CMD_SET_HID_JOYSTICK AOK ""
    "setting joystick as HID device"
  (r.1.map (fun _ => true), r.2)

/-- One value type covering the return values of all public operations. -/
inductive OpOutcome where
  | bool (b : Bool)
  | str (t : String)
  | optStr (o : Option String)
  | unit
deriving DecidableEq, Repr

/-- The public operations of the `RN42` facade. -/
inductive ChipOp where
  | enterCommandMode
  | leaveCommandMode
  | closeOp
  | rebootOp
  | getChipName
  | getFirmwareVersion
  | getOperationMode
  | setMasterMode
  | setSlaveMode
  | getAuthenticationMode
  | setAuthenticationOpenMode
  | setAuthenticationPinMode
  | getServiceProfile
  | setServiceProfileSPP
  | setServiceProfileHID
  | getLocalBluetoothAddress
  | getConnectionStatus
  | getRemoteConnectedBluetoothAddress
  | getHIDDeviceType
  | setHIDKeyboard
  | setHIDGamepad
  | setHIDMouse
  | setHIDCombo
  | setHIDJoystick
deriving DecidableEq, Repr

/-- Lift an operation that never touches the session state. -/
def statelessOp {α : Type} (s : RN42State) (f : α → OpOutcome)
    (r : Except PyExc α × List SerialEvent) :
    Except PyExc OpOutcome × RN42State × List SerialEvent :=
  (r.1.map f, s, r.2)

/-- Run one public operation on a session: outcome (or raised
exception), new session state, transport events. -/
def runOp (op : ChipOp) (ser : SerialDevice) (s : RN42State) :
    Except PyExc OpOutcome × RN42State × List SerialEvent :=
  match op with
  | ChipOp.enterCommandMode =>
      let r := enter_command_mode ser s
      (r.1.map OpOutcome.bool, r.2.1, r.2.2)
  | ChipOp.leaveCommandMode =>
      let r := leave_command_mode ser s
      (r.1.map OpOutcome.bool, r.2.1, r.2.2)
  | ChipOp.closeOp =>
      let r := close ser s
      (r.1.map (fun _ => OpOutcome.unit), r.2.1, r.2.2)
  | ChipOp.rebootOp => statelessOp s OpOutcome.bool (reboot ser)
  | ChipOp.getChipName => statelessOp s OpOutcome.str (get_chip_name ser)
  | ChipOp.getFirmwareVersion =>
      statelessOp s OpOutcome.str (get_firmware_version ser)
  | ChipOp.getOperationMode =>
      statelessOp s OpOutcome.optStr (get_operation_mode ser)
  | ChipOp.setMasterMode => statelessOp s OpOutcome.bool (set_master_mode ser)
  | ChipOp.setSlaveMode => statelessOp s OpOutcome.bool (set_slave_mode ser)
  | ChipOp.getAuthenticationMode =>
      statelessOp s OpOutcome.optStr (get_authentication_mode ser)
  | ChipOp.setAuthenticationOpenMode =>
      statelessOp s OpOutcome.bool (set_authentication_open_mode ser)
  | ChipOp.setAuthenticationPinMode =>
      statelessOp s OpOutcome.bool (set_authentication_pin_mode ser)
  | ChipOp.getServiceProfile =>
      statelessOp s OpOutcome.optStr (get_service_profile ser)
  | ChipOp.setServiceProfileSPP =>
      statelessOp s OpOutcome.bool (set_service_profile_SPP ser)
  | ChipOp.setServiceProfileHID =>
      statelessOp s OpOutcome.bool (set_service_profile_HID ser)
  | ChipOp.getLocalBluetoothAddress =>
      statelessOp s OpOutcome.str (get_local_bluetooth_address ser)
  | ChipOp.getConnectionStatus =>
      statelessOp s OpOutcome.bool (get_connection_status ser)
  | ChipOp.getRemoteConnectedBluetoothAddress =>
      statelessOp s OpOutcome.optStr (get_remote_connected_bluetooth_address ser)
  | ChipOp.getHIDDeviceType =>
      statelessOp s OpOutcome.optStr (get_HID_deviceType ser)
  | ChipOp.setHIDKeyboard => statelessOp s OpOutcome.bool (set_HID_keyboard ser)
  | ChipOp.setHIDGamepad => statelessOp s OpOutcome.bool (set_HID_gamepad ser)
  | ChipOp.setHIDMouse => statelessOp s OpOutcome.bool (set_HID_mouse ser)
  | ChipOp.setHIDCombo => statelessOp s OpOutcome.bool (set_HID_combo ser)
  | ChipOp.setHIDJoystick => statelessOp s OpOutcome.bool (set_HID_joystick ser)

/-- The payloads of the send events of a trace, in order. -/
def sentPayloads (evs : List SerialEvent) : List String :=
  evs.filterMap (fun e =>
    match e with
    | SerialEvent.send p => some p
    | SerialEvent.disconnect => none)

/-- Number of `disconnect` events in a trace. -/
def countDisconnects (evs : List SerialEvent) : Nat :=
  (evs.filter (fun e =>
    match e with
    | SerialEvent.disconnect => true
    | SerialEvent.send _ => false)).length

/-- A well-behaved chip: acknowledges entry with `CMD`, exit with `END`,
everything else with `AOK`. -/
def serGood : SerialDevice :=
  ⟨fun p =>
    if p = CMD_ENTER_COMMAND_MODE then Except.ok "CMD\r\n"
    else if p = CMD_LEAVE_COMMAND_MODE ++ NEWLINE then Except.ok "END\r\n"
    else Except.ok "AOK\r\n"⟩

/-- A chip already in command mode: empty reply to the entry token, a
correctly prefixed chip name to everything else. -/
def serProbe : SerialDevice :=
  ⟨fun p =>
    if p = CMD_ENTER_COMMAND_MODE then Except.ok ""
    else Except.ok "RNBT-A955\r\n"⟩

/-- A chip answering the entry token with unexpected noise. -/
def serNoise : SerialDevice :=
  ⟨fun p =>
    if p = CMD_ENTER_COMMAND_MODE then Except.ok "ERR"
    else Except.ok ""⟩

/-- A chip that answers every transaction with the wrong text. -/
def serWrong : SerialDevice := ⟨fun _ => Except.ok "WRONG\r\n"⟩

/-- Empty reply to the entry token, a wrongly named chip to the probe. -/
def serBadChip : SerialDevice :=
  ⟨fun p =>
    if p = CMD_ENTER_COMMAND_MODE then Except.ok ""
    else Except.ok "FOO-1234\r\n"⟩

/-- A chip that rejects the exit command. -/
def serBadLeave : SerialDevice := ⟨fun _ => Except.ok "ERR\r\n"⟩

/-- A transport that times out on every exchange. -/
def serTimeout : SerialDevice :=
  ⟨fun _ => Except.error PyExc.SerialTimeoutException⟩

/-- A transport that raises a non-timeout exception on every exchange. -/
def serValueError : SerialDevice :=
  ⟨fun _ => Except.error (PyExc.OtherException "ValueError")⟩

/-- Fresh session: data mode, not closed. -/
def sData : RN42State := ⟨false, false⟩

/-- Session currently in command mode. -/
def sCmd : RN42State := ⟨true, false⟩

-- Helper lemmas shared by the claim proofs.

theorem dictGet_eq_none_of_not_mem_keys (d : List (String × String))
    (c : String) (h : c ∉ d.map Prod.fst) : dictGet d c = none := by
  induction d with
  | nil => rfl
  | cons hd tl ih =>
    obtain ⟨k, v⟩ := hd
    simp only [List.map_cons, List.mem_cons, not_or] at h
    have hne : (c == k) = false := beq_eq_false_iff_ne.mpr h.1
    simp only [dictGet, List.lookup, hne]
    exact ih h.2

theorem ssr_events (ser : SerialDevice) (command expect expect_in msg : String) :
    (serial_send_and_receive ser command expect expect_in msg).2
      = [SerialEvent.send (command ++ NEWLINE)] := rfl

theorem ssr_ok_no_expect (ser : SerialDevice) (command msg raw : String)
    (h : ser.respond (command ++ NEWLINE) = Except.ok raw) :
    (serial_send_and_receive ser command "" "" msg).1 = Except.ok (pyStrip raw) := by
  simp [serial_send_and_receive, ssr_try_body, h]

theorem probe_events (ser : SerialDevice) :
    (enter_probe_body ser).2 = [SerialEvent.send (CMD_GET_CHIP_NAME ++ NEWLINE)] :=
  rfl

theorem empty_not_contains_CMD : pyContains "" "CMD" = false := rfl

theorem leave_trace (ser : SerialDevice) (s : RN42State) :
    (leave_command_mode ser s).2.2 = []
    ∨ (leave_command_mode ser s).2.2
        = [SerialEvent.send (CMD_LEAVE_COMMAND_MODE ++ NEWLINE)] := by
  by_cases hm : s.command_mode
  · cases hr : (serial_send_and_receive ser CMD_LEAVE_COMMAND_MODE "END" ""
        "leaving command mode").1 with
    | error e => right; simp [leave_command_mode, hm, hr, ssr_events]
    | ok v => right; simp [leave_command_mode, hm, hr, ssr_events]
  · left; simp [leave_command_mode, hm]

theorem enter_trace (ser : SerialDevice) (s : RN42State) :
    (enter_command_mode ser s).2.2 = [SerialEvent.send CMD_ENTER_COMMAND_MODE]
    ∨ (enter_command_mode ser s).2.2
        = [SerialEvent.send CMD_ENTER_COMMAND_MODE,
           SerialEvent.send (CMD_GET_CHIP_NAME ++ NEWLINE)] := by
  cases hr : ser.respond CMD_ENTER_COMMAND_MODE with
  | error e => left; cases e <;> simp [enter_command_mode, hr]
  | ok raw =>
    by_cases h1 : pyContains (pyStrip raw) "CMD"
    · left; simp [enter_command_mode, hr, h1]
    · by_cases h2 : pyStrip raw = ""
      · cases hp : (enter_probe_body ser).1 with
        | error e =>
          right
          simp [enter_command_mode, hr, h1, h2, hp, empty_not_contains_CMD,
            probe_events]
        | ok b =>
          right
          simp [enter_command_mode, hr, h1, h2, hp, empty_not_contains_CMD,
            probe_events]
      · left; simp [enter_command_mode, hr, h1, h2]

theorem enter_state_of_error (ser : SerialDevice) (s : RN42State) (e : PyExc)
    (h : (enter_command_mode ser s).1 = Except.error e) :
    (enter_command_mode ser s).2.1 = s := by
  cases hr : ser.respond CMD_ENTER_COMMAND_MODE with
  | error ex => cases ex <;> simp [enter_command_mode, hr]
  | ok raw =>
    by_cases h1 : pyContains (pyStrip raw) "CMD"
    · simp [enter_command_mode, hr, h1] at h
    · by_cases h2 : pyStrip raw = ""
      · cases hp : (enter_probe_body ser).1 with
        | error pe =>
          simp [enter_command_mode, hr, h1, h2, hp, empty_not_contains_CMD]
        | ok b =>
          simp [enter_command_mode, hr, h1, h2, hp, empty_not_contains_CMD] at h
      · simp [enter_command_mode, hr, h1, h2]

theorem leave_state_of_error (ser : SerialDevice) (s : RN42State) (e : PyExc)
    (h : (leave_command_mode ser s).1 = Except.error e) :
    (leave_command_mode ser s).2.1 = s := by
  by_cases hm : s.command_mode
  · cases hr : (serial_send_and_receive ser CMD_LEAVE_COMMAND_MODE "END" ""
        "leaving command mode").1 with
    | error ex => simp [leave_command_mode, hm, hr]
    | ok v => simp [leave_command_mode, hm, hr] at h
  · simp [leave_command_mode, hm] at h

/-- C8: calling `leave_command_mode` while the session is already
outside command mode is a no-op: it issues no transaction and returns
success (`True`) with the state untouched. -/
theorem C8_leave_already_out_noop (ser : SerialDevice) (s : RN42State)
    (h : s.command_mode = false) :
    leave_command_mode ser s = (Except.ok true, s, []) := by
  simp [leave_command_mode, h]

/-- C8 witness: the no-op at a concrete fresh session. -/
theorem C8_leave_already_out_noop_witness :
    leave_command_mode serGood sData = (Except.ok true, sData, []) :=
  C8_leave_already_out_noop serGood sData rfl

/-- C9: each decoding table maps exactly the documented codes to the
documented labels, and `dict.get` on a code absent from a table yields
`none` rather than raising. -/
theorem C9_decoding_tables :
    (dictGet OPERATION_MODE "Slav" = some "SLAVE"
      ∧ dictGet OPERATION_MODE "Mstr" = some "MASTER"
      ∧ dictGet OPERATION_MODE "Trig" = some "TRIGGER"
      ∧ dictGet OPERATION_MODE "Auto" = some "AUTO"
      ∧ dictGet OPERATION_MODE "DTR" = some "DTR"
      ∧ dictGet OPERATION_MODE "Any" = some "ANY"
      ∧ dictGet OPERATION_MODE "Pair" = some "PAIR")
    ∧ (dictGet AUTHENTICATION_MODE "0" = some "OPEN"
      ∧ dictGet AUTHENTICATION_MODE "1" = some "SSP_KEYBOARD"
      ∧ dictGet AUTHENTICATION_MODE "2" = some "SSP_JUST_WORK"
      ∧ dictGet AUTHENTICATION_MODE "4" = some "PIN_CODE")
    ∧ (dictGet SERVICE_PROFILE "0" = some "SPP"
      ∧ dictGet SERVICE_PROFILE "1" = some "DUN_DCE"
      ∧ dictGet SERVICE_PROFILE "2" = some "DUN_DTE"
      ∧ dictGet SERVICE_PROFILE "3" = some "MDM_SPP"
      ∧ dictGet SERVICE_PROFILE "4" = some "SPP_AND_DUN_DCE"
      ∧ dictGet SERVICE_PROFILE "5" = some "APL"
      ∧ dictGet SERVICE_PROFILE "6" = some "HID")
    ∧ (dictGet HID_DEVICE_TYPE "0200" = some "KEYBOARD"
      ∧ dictGet HID_DEVICE_TYPE "0210" = some "GAMEPAD"
      ∧ dictGet HID_DEVICE_TYPE "0220" = some "MOUSE"
      ∧ dictGet HID_DEVICE_TYPE "0230" = some "COMBO"
      ∧ dictGet HID_DEVICE_TYPE "0240" = some "JOYSTICK"
      ∧ dictGet HID_DEVICE_TYPE "0250" = some "DIGITIZER"
      ∧ dictGet HID_DEVICE_TYPE "0260" = some "SENSOR"
      ∧ dictGet HID_DEVICE_TYPE "0270" = some "USECFG")
    ∧ (∀ c, c ∉ OPERATION_MODE.map Prod.fst → dictGet OPERATION_MODE c = none)
    ∧ (∀ c, c ∉ AUTHENTICATION_MODE.map Prod.fst →
        dictGet AUTHENTICATION_MODE c = none)
    ∧ (∀ c, c ∉ SERVICE_PROFILE.map Prod.fst → dictGet SERVICE_PROFILE c = none)
    ∧ (∀ c, c ∉ HID_DEVICE_TYPE.map Prod.fst → dictGet HID_DEVICE_TYPE c = none) :=
  ⟨⟨rfl, rfl, rfl, rfl, rfl, rfl, rfl⟩,
   ⟨rfl, rfl, rfl, rfl⟩,
   ⟨rfl, rfl, rfl, rfl, rfl, rfl, rfl⟩,
   ⟨rfl, rfl, rfl, rfl, rfl, rfl, rfl, rfl⟩,
   fun c => dictGet_eq_none_of_not_mem_keys OPERATION_MODE c,
   fun c => dictGet_eq_none_of_not_mem_keys AUTHENTICATION_MODE c,
   fun c => dictGet_eq_none_of_not_mem_keys SERVICE_PROFILE c,
   fun c => dictGet_eq_none_of_not_mem_keys HID_DEVICE_TYPE c⟩

/-- C9 witness: unknown codes decode to `none` in every table. -/
theorem C9_decoding_tables_witness :
    dictGet OPERATION_MODE "Foo" = none
    ∧ dictGet AUTHENTICATION_MODE "3" = none
    ∧ dictGet SERVICE_PROFILE "7" = none
    ∧ dictGet HID_DEVICE_TYPE "0299" = none :=
  ⟨C9_decoding_tables.2.2.2.2.1 "Foo" (by decide),
   C9_decoding_tables.2.2.2.2.2.1 "3" (by decide),
   C9_decoding_tables.2.2.2.2.2.2.1 "7" (by decide),
   C9_decoding_tables.2.2.2.2.2.2.2 "0299" (by decide)⟩

/-- C10: in `enter_command_mode`'s initial entry-token exchange, a
transport timeout is converted to an `RN42Exception`, while any other
transport exception propagates unwrapped with the state unchanged. -/
theorem C10_entry_exception_discrimination (ser : SerialDevice) (s : RN42State) :
    (ser.respond CMD_ENTER_COMMAND_MODE
        = Except.error PyExc.SerialTimeoutException →
      enter_command_mode ser s =
        (Except.error (PyExc.RN42Exception "Failure in entering command mode."),
         s, [SerialEvent.send CMD_ENTER_COMMAND_MODE]))
    ∧ (∀ e, e ≠ PyExc.SerialTimeoutException →
        ser.respond CMD_ENTER_COMMAND_MODE = Except.error e →
        enter_command_mode ser s =
          (Except.error e, s, [SerialEvent.send CMD_ENTER_COMMAND_MODE])) := by
  constructor
  · intro h
    simp [enter_command_mode, h]
  · intro e he h
    cases e with
    | RN42Exception m => simp [enter_command_mode, h]
    | SerialTimeoutException => exact absurd rfl he
    | OtherException n => simp [enter_command_mode, h]

/-- C10 witness: timeout wrapped, a `ValueError`-style exception
propagated as itself, at concrete transports. -/
theorem C10_entry_exception_discrimination_witness :
    enter_command_mode serTimeout sData =
      (Except.error (PyExc.RN42Exception "Failure in entering command mode."),
       sData, [SerialEvent.send CMD_ENTER_COMMAND_MODE])
    ∧ enter_command_mode serValueError sData =
      (Except.error (PyExc.OtherException "ValueError"),
       sData, [SerialEvent.send CMD_ENTER_COMMAND_MODE]) :=
  ⟨(C10_entry_exception_discrimination serTimeout sData).1 rfl,
   (C10_entry_exception_discrimination serValueError sData).2
     (PyExc.OtherException "ValueError") (by decide) rfl⟩

/-- C4: `enter_command_mode` has exactly three outcomes on the stripped
entry response: a response containing `"CMD"` enters command mode and
returns `True`; an empty response followed by a correctly prefixed
chip-name probe enters command mode and returns `True`; any other
non-empty response fails with an error carrying the literal response,
leaving the state untouched. -/
theorem C4_enter_three_outcomes (ser : SerialDevice) (s : RN42State)
    (raw : String)
    (hraw : ser.respond CMD_ENTER_COMMAND_MODE = Except.ok raw) :
    (pyContains (pyStrip raw) "CMD" = true →
      enter_command_mode ser s =
        (Except.ok true, { s with command_mode := true },
         [SerialEvent.send CMD_ENTER_COMMAND_MODE]))
    ∧ (∀ rawName, pyStrip raw = "" →
        ser.respond (CMD_GET_CHIP_NAME ++ NEWLINE) = Except.ok rawName →
        pyStartswith (pyStrip rawName) CHIP_NAME = true →
        enter_command_mode ser s =
          (Except.ok true, { s with command_mode := true },
           [SerialEvent.send CMD_ENTER_COMMAND_MODE,
            SerialEvent.send (CMD_GET_CHIP_NAME ++ NEWLINE)]))
    ∧ (pyStrip raw ≠ "" → pyContains (pyStrip raw) "CMD" = false →
        enter_command_mode ser s =
          (Except.error (PyExc.RN42Exception
            ("Incorrect response in entering command mode: " ++ pyStrip raw)),
           s, [SerialEvent.send CMD_ENTER_COMMAND_MODE])) := by
  refine ⟨?_, ?_, ?_⟩
  · intro h1
    simp [enter_command_mode, hraw, h1]
  · intro rawName h2 hname hpre
    have hprobe : (enter_probe_body ser).1 = Except.ok true := by
      have hchip : (get_chip_name ser).1 = Except.ok (pyStrip rawName) :=
        ssr_ok_no_expect ser CMD_GET_CHIP_NAME "getting chip name" rawName hname
      simp [enter_probe_body, hchip, hpre]
    simp [enter_command_mode, hraw, h2, empty_not_contains_CMD, hprobe,
      probe_events]
  · intro h2 h1
    simp [enter_command_mode, hraw, h1, h2]

/-- C4 witness: the three outcomes at concrete transports — a `CMD`
reply, an empty reply resolved by the chip-name probe, and a noise
reply. -/
theorem C4_enter_three_outcomes_witness :
    enter_command_mode serGood sData =
      (Except.ok true, { sData with command_mode := true },
       [SerialEvent.send CMD_ENTER_COMMAND_MODE])
    ∧ enter_command_mode serProbe sData =
      (Except.ok true, { sData with command_mode := true },
       [SerialEvent.send CMD_ENTER_COMMAND_MODE,
        SerialEvent.send (CMD_GET_CHIP_NAME ++ NEWLINE)])
    ∧ enter_command_mode serNoise sData =
      (Except.error (PyExc.RN42Exception
        ("Incorrect response in entering command mode: " ++ pyStrip "ERR")),
       sData, [SerialEvent.send CMD_ENTER_COMMAND_MODE]) :=
  ⟨(C4_enter_three_outcomes serGood sData "CMD\r\n" rfl).1 (by decide),
   (C4_enter_three_outcomes serProbe sData "" rfl).2.1 "RNBT-A955\r\n" rfl rfl
     (by decide),
   (C4_enter_three_outcomes serNoise sData "ERR" rfl).2.2 (by decide) (by decide)⟩

theorem close_sent (ser : SerialDevice) (s : RN42State) :
    sentPayloads (close ser s).2.2 = []
    ∨ sentPayloads (close ser s).2.2 = [CMD_LEAVE_COMMAND_MODE ++ NEWLINE] := by
  by_cases hc : s.closed
  · left; simp [close, hc, sentPayloads]
  · rcases hl : leave_command_mode ser s with ⟨r, s1, ev⟩
    have ht := leave_trace ser s
    rw [hl] at ht
    cases r with
    | error e =>
      rcases ht with h | h
      · replace h : ev = [] := h
        left; simp [close, hc, hl, h, sentPayloads]
      · replace h : ev = [SerialEvent.send (CMD_LEAVE_COMMAND_MODE ++ NEWLINE)] := h
        right; simp [close, hc, hl, h, sentPayloads]
    | ok v =>
      rcases ht with h | h
      · replace h : ev = [] := h
        left; simp [close, hc, hl, h, sentPayloads]
      · replace h : ev = [SerialEvent.send (CMD_LEAVE_COMMAND_MODE ++ NEWLINE)] := h
        right; simp [close, hc, hl, h, sentPayloads]

/-- C5: every command issued through the engine is transmitted as the
command text followed by the two-byte terminator `"\r\n"`, except the
command-mode entry token `"$$$"`, which is sent bare: the transaction
executor always appends the terminator, the entry exchange transmits
exactly the bare token (followed at most by the terminated chip-name
probe), and every payload any operation hands to the transport is
either the bare entry token or some command text plus terminator. -/
theorem C5_wire_format :
    (∀ ser command expect expect_in msg,
      (serial_send_and_receive ser command expect expect_in msg).2
        = [SerialEvent.send (command ++ NEWLINE)])
    ∧ (∀ ser s,
        sentPayloads (enter_command_mode ser s).2.2 = [CMD_ENTER_COMMAND_MODE]
        ∨ sentPayloads (enter_command_mode ser s).2.2
            = [CMD_ENTER_COMMAND_MODE, CMD_GET_CHIP_NAME ++ NEWLINE])
    ∧ (∀ op ser s p, p ∈ sentPayloads (runOp op ser s).2.2 →
        p = CMD_ENTER_COMMAND_MODE ∨ ∃ c, p = c ++ NEWLINE) := by
  refine ⟨fun ser command expect expect_in msg => rfl, ?_, ?_⟩
  · intro ser s
    rcases enter_trace ser s with h | h
    · left; rw [h]; rfl
    · right; rw [h]; rfl
  · intro op ser s p hp
    cases op with
    | enterCommandMode =>
      simp only [runOp] at hp
      rcases enter_trace ser s with h | h
      · rw [h] at hp
        simp [sentPayloads] at hp
        exact Or.inl hp
      · rw [h] at hp
        simp [sentPayloads] at hp
        rcases hp with hp | hp
        · exact Or.inl hp
        · exact Or.inr ⟨CMD_GET_CHIP_NAME, hp⟩
    | leaveCommandMode =>
      simp only [runOp] at hp
      rcases leave_trace ser s with h | h
      · rw [h] at hp
        simp [sentPayloads] at hp
      · rw [h] at hp
        simp [sentPayloads] at hp
        exact Or.inr ⟨CMD_LEAVE_COMMAND_MODE, hp⟩
    | closeOp =>
      simp only [runOp] at hp
      rcases close_sent ser s with h | h
      · rw [h] at hp
        simp at hp
      · rw [h] at hp
        simp at hp
        exact Or.inr ⟨CMD_LEAVE_COMMAND_MODE, hp⟩
    | rebootOp =>
      simp [runOp, statelessOp, reboot, serial_send_and_receive,
        sentPayloads] at hp
      exact Or.inr ⟨CMD_REBOOT, hp⟩
    | getChipName =>
      simp [runOp, statelessOp, get_chip_name, serial_send_and_receive,
        sentPayloads] at hp
      exact Or.inr ⟨CMD_GET_CHIP_NAME, hp⟩
    | getFirmwareVersion =>
      simp [runOp, statelessOp, get_firmware_version, serial_send_and_receive,
        sentPayloads] at hp
      exact Or.inr ⟨CMD_GET_FIRMWARE_VERSION, hp⟩
    | getOperationMode =>
      simp [runOp, statelessOp, get_operation_mode, serial_send_and_receive,
        sentPayloads] at hp
      exact Or.inr ⟨CMD_GET_OPERATION_MODE, hp⟩
    | setMasterMode =>
      simp [runOp, statelessOp, set_master_mode, serial_send_and_receive,
        sentPayloads] at hp
      exact Or.inr ⟨CMD_SET_MASTER_MODE, hp⟩
    | setSlaveMode =>
      simp [runOp, statelessOp, set_slave_mode, serial_send_and_receive,
        sentPayloads] at hp
      exact Or.inr ⟨CMD_SET_SLAVE_MODE, hp⟩
    | getAuthenticationMode =>
      simp [runOp, statelessOp, get_authentication_mode,
        serial_send_and_receive, sentPayloads] at hp
      exact Or.inr ⟨CMD_GET_AUTHENTICATION_MODE, hp⟩
    | setAuthenticationOpenMode =>
      simp [runOp, statelessOp, set_authentication_open_mode,
        serial_send_and_receive, sentPayloads] at hp
      exact Or.inr ⟨CMD_SET_AUTHENTICATION_OPEN_MODE, hp⟩
    | setAuthenticationPinMode =>
      simp [runOp, statelessOp, set_authentication_pin_mode,
        serial_send_and_receive, sentPayloads] at hp
      exact Or.inr ⟨CMD_SET_AUTHENTICATION_PIN_MODE, hp⟩
    | getServiceProfile =>
      simp [runOp, statelessOp, get_service_profile, serial_send_and_receive,
        sentPayloads] at hp
      exact Or.inr ⟨CMD_GET_SERVICE_PROFILE, hp⟩
    | setServiceProfileSPP =>
      simp [runOp, statelessOp, set_service_profile_SPP,
        serial_send_and_receive, sentPayloads] at hp
      exact Or.inr ⟨CMD_SET_SERVICE_PROFILE_SPP, hp⟩
    | setServiceProfileHID =>
      simp [runOp, statelessOp, set_service_profile_HID,
        serial_send_and_receive, sentPayloads] at hp
      exact Or.inr ⟨CMD_SET_SERVICE_PROFILE_HID, hp⟩
    | getLocalBluetoothAddress =>
      simp [runOp, statelessOp, get_local_bluetooth_address,
        serial_send_and_receive, sentPayloads] at hp
      exact Or.inr ⟨CMD_GET_RN42_BLUETOOTH_MAC, hp⟩
    | getConnectionStatus =>
      simp [runOp, statelessOp, get_connection_status,
        serial_send_and_receive, sentPayloads] at hp
      exact Or.inr ⟨CMD_GET_CONNECTION_STATUS, hp⟩
    | getRemoteConnectedBluetoothAddress =>
      simp [runOp, statelessOp, get_remote_connected_bluetooth_address,
        serial_send_and_receive, sentPayloads] at hp
      exact Or.inr ⟨CMD_GET_REMOTE_CONNECTED_BLUETOOTH_MAC, hp⟩
    | getHIDDeviceType =>
      simp [runOp, statelessOp, get_HID_deviceType, serial_send_and_receive,
        sentPayloads] at hp
      exact Or.inr ⟨CMD_GET_HID, hp⟩
    | setHIDKeyboard =>
      simp [runOp, statelessOp, set_HID_keyboard, serial_send_and_receive,
        sentPayloads] at hp
      exact Or.inr ⟨CMD_SET_HID_KEYBOARD, hp⟩
    | setHIDGamepad =>
      simp [runOp, statelessOp, set_HID_gamepad, serial_send_and_receive,
        sentPayloads] at hp
      exact Or.inr ⟨CMD_SET_HID_GAMEPAD, hp⟩
    | setHIDMouse =>
      simp [runOp, statelessOp, set_HID_mouse, serial_send_and_receive,
        sentPayloads] at hp
      exact Or.inr ⟨CMD_SET_HID_MOUSE, hp⟩
    | setHIDCombo =>
      simp [runOp, statelessOp, set_HID_combo, serial_send_and_receive,
        sentPayloads] at hp
      exact Or.inr ⟨CMD_SET_HID_COMBO, hp⟩
    | setHIDJoystick =>
      simp [runOp, statelessOp, set_HID_joystick, serial_send_and_receive,
        sentPayloads] at hp
      exact Or.inr ⟨CMD_SET_HID_JOYSTICK, hp⟩

/-- C5 witness: the terminated master-mode command payload and the bare
entry token at a concrete transport and session. -/
theorem C5_wire_format_witness :
    (serial_send_and_receive serGood CMD_SET_MASTER_MODE AOK ""
        "setting master mode").2
      = [SerialEvent.send (CMD_SET_MASTER_MODE ++ NEWLINE)]
    ∧ (sentPayloads (enter_command_mode serGood sData).2.2
          = [CMD_ENTER_COMMAND_MODE]
        ∨ sentPayloads (enter_command_mode serGood sData).2.2
          = [CMD_ENTER_COMMAND_MODE, CMD_GET_CHIP_NAME ++ NEWLINE])
    ∧ ((CMD_SET_MASTER_MODE ++ NEWLINE) = CMD_ENTER_COMMAND_MODE
        ∨ ∃ c, (CMD_SET_MASTER_MODE ++ NEWLINE) = c ++ NEWLINE) :=
  ⟨C5_wire_format.1 serGood CMD_SET_MASTER_MODE AOK "" "setting master mode",
   C5_wire_format.2.1 serGood sData,
   C5_wire_format.2.2 ChipOp.setMasterMode serGood sData
     (CMD_SET_MASTER_MODE ++ NEWLINE) (by decide)⟩

theorem close_state_of_error (ser : SerialDevice) (s : RN42State) (e : PyExc)
    (h : (close ser s).1 = Except.error e) : (close ser s).2.1 = s := by
  by_cases hc : s.closed
  · simp [close, hc] at h
  · rcases hl : leave_command_mode ser s with ⟨r, s1, ev⟩
    cases r with
    | error ex =>
      have hs1 : s1 = s := by
        have h2 := leave_state_of_error ser s ex (by rw [hl])
        rw [hl] at h2
        exact h2
      simp [close, hc, hl, hs1]
    | ok v => simp [close, hc, hl] at h

/-- C6: whenever an operation raises, the session state is unchanged;
in particular leaving command mode while in command mode with a reply
whose stripped text is not exactly `"END"` raises and leaves the
command-mode flag set. -/
theorem C6_failure_preserves_state (op : ChipOp) (ser : SerialDevice)
    (s : RN42State) :
    (∀ e, (runOp op ser s).1 = Except.error e → (runOp op ser s).2.1 = s)
    ∧ (s.command_mode = true →
        ∀ raw, ser.respond (CMD_LEAVE_COMMAND_MODE ++ NEWLINE) = Except.ok raw →
        pyStrip raw ≠ "END" →
        (leave_command_mode ser s).1
          = Except.error (PyExc.RN42Exception "Failulre in leaving command mode")
        ∧ ((leave_command_mode ser s).2.1).command_mode = true) := by
  constructor
  · cases op
    case enterCommandMode =>
      intro e h
      simp only [runOp] at h ⊢
      cases hr : (enter_command_mode ser s).1 with
      | ok v => rw [hr] at h; simp [Except.map] at h
      | error ex => exact enter_state_of_error ser s ex hr
    case leaveCommandMode =>
      intro e h
      simp only [runOp] at h ⊢
      cases hr : (leave_command_mode ser s).1 with
      | ok v => rw [hr] at h; simp [Except.map] at h
      | error ex => exact leave_state_of_error ser s ex hr
    case closeOp =>
      intro e h
      simp only [runOp] at h ⊢
      cases hr : (close ser s).1 with
      | ok v => rw [hr] at h; simp [Except.map] at h
      | error ex => exact close_state_of_error ser s ex hr
    all_goals exact fun e h => rfl
  · intro hm raw hraw hne
    have hb : ("END" != pyStrip raw) = true := bne_iff_ne.mpr (Ne.symm hne)
    have e1 : (("END" : String) != "") = true := rfl
    have e2 : (("" : String) != "") = false := rfl
    have hbody : ssr_try_body ser CMD_LEAVE_COMMAND_MODE "END" ""
        "leaving command mode"
        = Except.error (PyExc.RN42Exception
            ("Failulre in leaving command mode: " ++ pyStrip raw)) := by
      simp [ssr_try_body, hraw, hb, e1, e2]
    have hssr : (serial_send_and_receive ser CMD_LEAVE_COMMAND_MODE "END" ""
        "leaving command mode").1
        = Except.error (PyExc.RN42Exception "Failulre in leaving command mode") := by
      simp [serial_send_and_receive, hbody]
    constructor
    · simp [leave_command_mode, hm, hssr]
    · simp [leave_command_mode, hm, hssr]

/-- C6 witness: a rejected setter leaves the state unchanged, and a
rejected exit exchange leaves the command-mode flag set, at concrete
transports. -/
theorem C6_failure_preserves_state_witness :
    (runOp ChipOp.setMasterMode serWrong sData).2.1 = sData
    ∧ ((leave_command_mode serBadLeave sCmd).1
        = Except.error (PyExc.RN42Exception "Failulre in leaving command mode")
      ∧ ((leave_command_mode serBadLeave sCmd).2.1).command_mode = true) :=
  ⟨(C6_failure_preserves_state ChipOp.setMasterMode serWrong sData).1
      (PyExc.RN42Exception "Failulre in setting master mode") rfl,
   (C6_failure_preserves_state ChipOp.setMasterMode serBadLeave sCmd).2 rfl
      "ERR\r\n" rfl (by decide)⟩

theorem countDisconnects_append (a b : List SerialEvent) :
    countDisconnects (a ++ b) = countDisconnects a + countDisconnects b := by
  simp [countDisconnects, List.filter_append]

theorem leave_no_disconnect (ser : SerialDevice) (s : RN42State) :
    countDisconnects (leave_command_mode ser s).2.2 = 0 := by
  rcases leave_trace ser s with h | h <;> rw [h] <;> rfl

/-- C3 counterexample: with the session in command mode and a transport
rejecting the exit exchange, `close` raises, performs no disconnect,
and leaves the closed flag false — the Leave step is not best-effort. -/
theorem C3_close_counterexample :
    (close serBadLeave sCmd).1
      = Except.error (PyExc.RN42Exception "Failulre in leaving command mode")
    ∧ countDisconnects (close serBadLeave sCmd).2.2 = 0
    ∧ ((close serBadLeave sCmd).2.1).closed = false :=
  ⟨rfl, rfl, rfl⟩

/-- C3 (amended): on a session not yet closed, `close` runs Leave
unguarded: when Leave succeeds (always the case out of command mode),
close performs exactly one disconnect and marks the session closed;
when Leave raises, close propagates the error, performs no disconnect,
and leaves the state unchanged. -/
theorem C3_close_teardown (ser : SerialDevice) (s : RN42State)
    (h : s.closed = false) :
    (∀ s1 ev, close ser s = (Except.ok (), s1, ev) →
      s1.closed = true ∧ countDisconnects ev = 1)
    ∧ (∀ e s1 ev, close ser s = (Except.error e, s1, ev) →
      s1 = s ∧ countDisconnects ev = 0) := by
  have hld := leave_no_disconnect ser s
  rcases hl : leave_command_mode ser s with ⟨r, s1', ev'⟩
  rw [hl] at hld
  replace hld : countDisconnects ev' = 0 := hld
  constructor
  · intro s1 ev hcl
    cases r with
    | error e => simp [close, h, hl] at hcl
    | ok v =>
      simp only [close, h, hl, Bool.false_eq_true, if_false, Prod.mk.injEq] at hcl
      obtain ⟨-, h1, h2⟩ := hcl
      constructor
      · rw [← h1]
      · rw [← h2, countDisconnects_append, hld]
        rfl
  · intro e s1 ev hcl
    cases r with
    | ok v => simp [close, h, hl] at hcl
    | error ex =>
      have hs1 : s1' = s := by
        have h2 := leave_state_of_error ser s ex (by rw [hl])
        rw [hl] at h2
        exact h2
      simp only [close, h, hl, Bool.false_eq_true, if_false, Prod.mk.injEq,
        Except.error.injEq] at hcl
      obtain ⟨-, h1, h2⟩ := hcl
      exact ⟨h1 ▸ hs1, h2 ▸ hld⟩

/-- C3 witness: a successful close of an in-command-mode session marks
it closed with exactly one disconnect. -/
theorem C3_close_teardown_witness :
    RN42State.closed { command_mode := false, closed := true } = true
    ∧ countDisconnects [SerialEvent.send (CMD_LEAVE_COMMAND_MODE ++ NEWLINE),
        SerialEvent.disconnect] = 1 :=
  (C3_close_teardown serGood sCmd rfl).1
    { command_mode := false, closed := true }
    [SerialEvent.send (CMD_LEAVE_COMMAND_MODE ++ NEWLINE),
     SerialEvent.disconnect] rfl

/-- C7 counterexample: when the exit exchange fails, two consecutive
`close` calls perform zero disconnects and the second call raises, so
close is not unconditionally idempotent as claimed. -/
theorem C7_close_twice_counterexample :
    countDisconnects ((close serBadLeave sCmd).2.2
        ++ (close serBadLeave (close serBadLeave sCmd).2.1).2.2) = 0
    ∧ (close serBadLeave (close serBadLeave sCmd).2.1).1
        = Except.error (PyExc.RN42Exception "Failulre in leaving command mode") :=
  ⟨rfl, rfl⟩

/-- C7 (amended): on a session not yet closed whose first `close`
succeeds, the first call performs exactly one disconnect and the second
call is a silent no-op: it succeeds, changes nothing, and performs no
transport activity. -/
theorem C7_close_idempotent_after_success (ser : SerialDevice) (s : RN42State)
    (h : s.closed = false) (hok : (close ser s).1 = Except.ok ()) :
    countDisconnects (close ser s).2.2 = 1
    ∧ close ser (close ser s).2.1 = (Except.ok (), (close ser s).2.1, []) := by
  have hld := leave_no_disconnect ser s
  rcases hl : leave_command_mode ser s with ⟨r, s1', ev'⟩
  rw [hl] at hld
  replace hld : countDisconnects ev' = 0 := hld
  cases r with
  | error e => simp [close, h, hl] at hok
  | ok v =>
    have hcl : close ser s
        = (Except.ok (), { s1' with closed := true },
           ev' ++ [SerialEvent.disconnect]) := by
      simp [close, h, hl]
    rw [hcl]
    constructor
    · show countDisconnects (ev' ++ [SerialEvent.disconnect]) = 1
      rw [countDisconnects_append, hld]
      rfl
    · show close ser { s1' with closed := true }
        = (Except.ok (), { s1' with closed := true }, [])
      simp [close]

/-- C7 witness: the two-close sequence at a concrete well-behaved
transport, from command mode. -/
theorem C7_close_idempotent_witness :
    countDisconnects (close serGood sCmd).2.2 = 1
    ∧ close serGood (close serGood sCmd).2.1
        = (Except.ok (), (close serGood sCmd).2.1, []) :=
  C7_close_idempotent_after_success serGood sCmd rfl rfl

/-- C1: at a concrete mismatching exchange, the `try:` body of
`serial_send_and_receive` raises the detailed message carrying the raw
result, but the `except Exception:` clause re-raises a message carrying
only the label — the raised error does not contain the raw result
`"WRONG"`, contradicting the claim. -/
theorem C1_error_message_drops_result :
    ssr_try_body serWrong CMD_SET_MASTER_MODE AOK "" "setting master mode"
      = Except.error
          (PyExc.RN42Exception "Failulre in setting master mode: WRONG")
    ∧ (serial_send_and_receive serWrong CMD_SET_MASTER_MODE AOK ""
        "setting master mode").1
      = Except.error (PyExc.RN42Exception "Failulre in setting master mode")
    ∧ pyContains "Failulre in setting master mode" "WRONG" = false :=
  ⟨rfl, rfl, by decide⟩

/-- C2: with an empty entry reply and a chip-name probe answering
`"FOO-1234"`, the nested `try:` body raises the detailed message naming
the chip, but the `except Exception:` clause replaces it with a generic
message that does not name `"FOO-1234"`, contradicting the claim. -/
theorem C2_chip_name_error_message_generic :
    (enter_probe_body serBadChip).1
      = Except.error (PyExc.RN42Exception
          "Incorrect chip name when entering command mode: FOO-1234")
    ∧ enter_command_mode serBadChip sData
      = (Except.error (PyExc.RN42Exception
           "Failure to get chip name in entering command mode."),
         sData,
         [SerialEvent.send CMD_ENTER_COMMAND_MODE,
          SerialEvent.send (CMD_GET_CHIP_NAME ++ NEWLINE)])
    ∧ pyContains "Failure to get chip name in entering command mode."
        "FOO-1234" = false :=
  ⟨rfl, rfl, by decide⟩
